import Mathlib

/-!
Verification of the translation-gateway repository: a shallow embedding of
the request-validation pipeline (app/models/schemas.py), the translation
service with its model cache (app/services/translation_service.py) and the
HTTP handlers (app/main.py), together with theorems checking the
specification's claims against that embedding.
-/

/-! ### Python string primitives

The service manipulates Python strings with `.strip()`, `.lower()` and
`.split()` (no separator).  We model them on the character list of a
`String`, with structural recursion so that every definition evaluates
inside the kernel. -/

/-- Python `str.strip()` removes leading whitespace: `dropWhile` over the
character list. -/
def lstripData (l : List Char) : List Char := l.dropWhile Char.isWhitespace

/-- Python `str.strip()` removes trailing whitespace: `dropWhile` over the
reversed character list. -/
def rstripData (l : List Char) : List Char :=
  (l.reverse.dropWhile Char.isWhitespace).reverse

/-- Python `str.strip()`: trim whitespace from both ends. -/
def pyStrip (s : String) : String := ⟨rstripData (lstripData s.data)⟩

/-- Python `str.lower()` (the language codes handled here are ASCII). -/
def pyLower (s : String) : String := ⟨s.data.map Char.toLower⟩

/-- Accumulator pass behind `pySplit`: gathers maximal runs of
non-whitespace characters, discarding whitespace. -/
def wordsAux : List Char → List Char → List String
  | [], acc => if acc.isEmpty then [] else [⟨acc.reverse⟩]
  | c :: rest, acc =>
    if c.isWhitespace then
      if acc.isEmpty then wordsAux rest [] else ⟨acc.reverse⟩ :: wordsAux rest []
    else
      wordsAux rest (c :: acc)

/-- Python `str.split()` with no separator: split on whitespace runs,
dropping empty fragments. -/
def pySplit (s : String) : List String := wordsAux s.data []

/-- Normalisation applied to language codes throughout the repository:
`v.lower().strip()`. -/
def normCode (s : String) : String := pyStrip (pyLower s)

/-- Membership of one character list inside another (substring test on
`String.data`); used to check that error messages mention required
fragments. -/
def isPreOf : List Char → List Char → Bool
  | [], _ => true
  | _ :: _, [] => false
  | a :: as, b :: bs => a == b && isPreOf as bs

/-- Substring occurrence test on character lists. -/
def isSubOf (pat : List Char) : List Char → Bool
  | [] => isPreOf pat []
  | l@(_ :: t) => isPreOf pat l || isSubOf pat t

/-- `strContains s pat` holds when `pat` occurs inside `s`. -/
def strContains (s pat : String) : Bool := isSubOf pat.data s.data

/-- The language codes the validators accept (`{'he', 'ru', 'en'}` in
`app/models/schemas.py`). -/
def allowed_langs : List String := ["he", "ru", "en"]

/-! ### Request validation (`app/models/schemas.py`)

`TranslationRequest` is a pydantic model.  Pydantic validates the fields in
declaration order (`text`, `source_lang`, `target_lang`); for each field it
first applies the `Field` constraints (`min_length=1`, `max_length=500` on
`text`) and then the `field_validator`s in their declaration order, and it
collects the per-field failures into one ordered error list instead of
stopping at the first one. -/

/-- The failure categories of the validation pipeline. -/
inductive ValErr where
  /-- pydantic `min_length=1` on `text` (`string_too_short`). -/
  | stringTooShort
  /-- pydantic `max_length=500` on `text` (`string_too_long`). -/
  | textTooLong
  /-- `validate_text`: text empty or just whitespace. -/
  | emptyText
  /-- `validate_text`: more than 10 words. -/
  | wordLimitExceeded
  /-- `validate_language_codes`: code not in `{'he', 'ru', 'en'}`. -/
  | unknownLanguageCode
  /-- `validate_different_languages`: source equals target. -/
  | identicalLanguages
  /-- service-level check: pair missing from `MODEL_MAPPING`. -/
  | unsupportedPair
  /-- `BatchTranslationRequest.texts`: pydantic `min_length=1` on the list. -/
  | textsListEmpty
  /-- `BatchTranslationRequest.texts`: pydantic `max_length=100` on the list. -/
  | textsListTooLong
deriving DecidableEq, Repr

/-- Word counting as in `schemas.validate_text`:
`len(v.strip().split())`. -/
def word_count (v : String) : Nat := (pySplit (pyStrip v)).length

/-- The `WordLimitExceeded` message of `schemas.validate_text` (the same
format string is used in `TranslationService.translate`). -/
def wordLimitMessage (n : Nat) : String :=
  "Text exceeds maximum length of 10 words. Current text has "
    ++ Nat.repr n ++ " words."

/-- The word-limit branch of `schemas.validate_text`: `some message` when
the check fires, `none` when it passes. -/
def word_limit_error (v : String) : Option String :=
  if 10 < word_count v then some (wordLimitMessage (word_count v)) else none

/-- Validation of the `text` field: the `Field(min_length=1,
max_length=500)` constraints followed by `validate_text` (empty-after-strip
and the 10-word ceiling); on success the field stores the stripped text. -/
def validate_text (v : String) : Except ValErr String :=
  if v.length < 1 then .error .stringTooShort
  else if 500 < v.length then .error .textTooLong
  else if pyStrip v = "" then .error .emptyText
  else if 10 < word_count v then .error .wordLimitExceeded
  else .ok (pyStrip v)

/-- `validate_language_codes`: lowercase, strip and test membership in
`allowed_langs`; on success the field stores the normalized code. -/
def validate_language_codes (v : String) : Except ValErr String :=
  let v := normCode v
  if allowed_langs.contains v then .ok v else .error .unknownLanguageCode

/-- The ordered error list pydantic produces for a `TranslationRequest`:
`text` errors first, then `source_lang`, then `target_lang` (membership,
then `validate_different_languages`, which is skipped when `source_lang`
itself failed because `info.data.get('source_lang')` is then absent). -/
def validateRequest (text source_lang target_lang : String) : List ValErr :=
  (match validate_text text with
    | .error e => [e]
    | .ok _ => [])
  ++ (match validate_language_codes source_lang with
    | .error e => [e]
    | .ok _ => [])
  ++ (match validate_language_codes target_lang with
    | .error e => [e]
    | .ok tv =>
      match validate_language_codes source_lang with
      | .ok sv => if tv == sv then [ValErr.identicalLanguages] else []
      | .error _ => [])

/-- Validation of the `texts` field of `BatchTranslationRequest`: list
bounds 1..100, then the per-item loop, which raises at the first item that
is empty or exceeds 10 words; on success every stored item is stripped. -/
def validate_texts (texts : List String) : Except ValErr (List String) :=
  if texts.length < 1 then .error .textsListEmpty
  else if 100 < texts.length then .error .textsListTooLong
  else
    let rec loop : List String → Except ValErr (List String)
      | [] => .ok []
      | t :: rest =>
        if pyStrip t = "" then .error .emptyText
        else if 10 < word_count t then .error .wordLimitExceeded
        else match loop rest with
          | .error e => .error e
          | .ok rs => .ok (pyStrip t :: rs)
    loop texts

/-- The ordered error list pydantic produces for a
`BatchTranslationRequest` (`texts`, then `source_lang`, then
`target_lang`). -/
def validateBatchRequest (texts : List String) (source_lang target_lang : String) :
    List ValErr :=
  (match validate_texts texts with
    | .error e => [e]
    | .ok _ => [])
  ++ (match validate_language_codes source_lang with
    | .error e => [e]
    | .ok _ => [])
  ++ (match validate_language_codes target_lang with
    | .error e => [e]
    | .ok tv =>
      match validate_language_codes source_lang with
      | .ok sv => if tv == sv then [ValErr.identicalLanguages] else []
      | .error _ => [])

/-! ### The translation service
(`app/services/translation_service.py`) -/

/-- Python exceptions the service raises: `ValueError` for business
validation, plain `Exception` for wrapped load/translation failures. -/
inductive PyErr where
  | valueError (msg : String)
  | exception (msg : String)
deriving DecidableEq, Repr

/-- The message carried by an exception (`str(e)`). -/
def PyErr.msg : PyErr → String
  | .valueError m => m
  | .exception m => m

namespace TranslationService

/-- `MODEL_MAPPING`: supported language pairs and their model
identifiers. -/
def MODEL_MAPPING : List (String × String) :=
  [("he-ru", "Helsinki-NLP/opus-mt-he-ru"),
   ("ru-he", "Helsinki-NLP/opus-mt-ru-he"),
   ("en-he", "Helsinki-NLP/opus-mt-en-he"),
   ("he-en", "Helsinki-NLP/opus-mt-he-en")]

/-- `language_pair in MODEL_MAPPING`. -/
def supportedPair (p : String) : Bool := (MODEL_MAPPING.lookup p).isSome

/-- Python repr of `list(self.MODEL_MAPPING.keys())`, interpolated into the
unsupported-pair message. -/
def supportedPairsRepr : String := "['he-ru', 'ru-he', 'en-he', 'he-en']"

/-- The external model collaborator (HuggingFace loaders, device placement
and the tokenize/generate/decode inference step); each operation either
returns an opaque handle/result or fails with an exception message. -/
structure LoadEnv where
  fromPretrainedTokenizer : String → Except String Nat
  fromPretrainedModel : String → Except String Nat
  toDevice : Nat → Except String Nat
  runInference : Nat → Nat → String → Except String String

/-- The mutable state of a `TranslationService` instance: the
`self._models` and `self._tokenizers` caches, as association lists keyed by
language pair. -/
structure ServiceState where
  models : List (String × Nat)
  tokenizers : List (String × Nat)
deriving DecidableEq, Repr

/-- `__init__`: both caches start empty (the device string is irrelevant to
the claims). -/
def init : ServiceState := ⟨[], []⟩

/-- `is_model_loaded`: `language_pair in self._models`. -/
def is_model_loaded (st : ServiceState) (language_pair : String) : Bool :=
  (st.models.lookup language_pair).isSome

/-- Result of `_load_model`: the state afterwards, whether an underlying
load was executed (the body of the `try` block ran), and the exception
raised, if any. -/
structure LoadOutcome where
  state : ServiceState
  performedLoad : Bool
  err : Option PyErr
deriving DecidableEq, Repr

/-- `_load_model`: cache hit returns immediately; unknown pairs raise
`ValueError`; otherwise the tokenizer and model are constructed and placed
on the device, and only after all of that succeeds are both caches
updated.  A failure anywhere in the `try` block is re-raised as
`Exception("Model loading failed: ...")` with no cache mutation. -/
def load_model (env : LoadEnv) (st : ServiceState) (language_pair : String) :
    LoadOutcome :=
  if (st.models.lookup language_pair).isSome then ⟨st, false, none⟩
  else if ¬ supportedPair language_pair then
    ⟨st, false, some (.valueError ("Unsupported language pair: " ++ language_pair))⟩
  else
    let model_name := (MODEL_MAPPING.lookup language_pair).getD ""
    match env.fromPretrainedTokenizer model_name with
    | .error e => ⟨st, true, some (.exception ("Model loading failed: " ++ e))⟩
    | .ok tokenizer =>
      match env.fromPretrainedModel model_name with
      | .error e => ⟨st, true, some (.exception ("Model loading failed: " ++ e))⟩
      | .ok model =>
        match env.toDevice model with
        | .error e => ⟨st, true, some (.exception ("Model loading failed: " ++ e))⟩
        | .ok model' =>
          ⟨{ models := (language_pair, model') :: st.models,
             tokenizers := (language_pair, tokenizer) :: st.tokenizers },
           true, none⟩

/-- `translate`: strip and business-validate the text, normalize the
codes, check the pair, then run the `try` block (load-if-absent, tokenize,
generate, decode); any exception inside the `try` block — including a load
failure — is re-raised as `Exception("Translation failed: ...")`. -/
def translate (env : LoadEnv) (st : ServiceState)
    (text source_lang target_lang : String) :
    ServiceState × Except PyErr String :=
  let text := pyStrip text
  if text = "" then (st, .error (.valueError "Text cannot be empty"))
  else
    let wc := (pySplit text).length
    if 10 < wc then (st, .error (.valueError (wordLimitMessage wc)))
    else
      let source_lang := normCode source_lang
      let target_lang := normCode target_lang
      let language_pair := source_lang ++ "-" ++ target_lang
      if ¬ supportedPair language_pair then
        (st, .error (.valueError ("Unsupported language pair: " ++ source_lang
          ++ " -> " ++ target_lang ++ ". Supported pairs: " ++ supportedPairsRepr)))
      else
        let lr := load_model env st language_pair
        match lr.err with
        | some e =>
          (lr.state, .error (.exception ("Translation failed: " ++ e.msg)))
        | none =>
          let model := (lr.state.models.lookup language_pair).getD 0
          let tokenizer := (lr.state.tokenizers.lookup language_pair).getD 0
          match env.runInference tokenizer model text with
          | .error e =>
            (lr.state, .error (.exception ("Translation failed: " ++ e)))
          | .ok translated_text => (lr.state, .ok (pyStrip translated_text))

/-- `get_supported_language_pairs` returns `self.MODEL_MAPPING.copy()`;
the heap model of the copy lives in the `RegistryCopy` namespace below. -/
def get_supported_language_pairs : List (String × String) := MODEL_MAPPING

end TranslationService

/-! ### First-failure view of the request path

For the ordering claims we classify which check fails first on the single
translation path: the head of pydantic's ordered error list and, when the
schema passes, the first failing business check inside
`TranslationService.translate`. -/

/-- The validation prefix of `TranslationService.translate` as a
first-failure classifier: strip/empty check, word ceiling, then the
pair-registry membership check (the language codes were already
normalized by the schema; `translate` normalizes them again). -/
def translateFirstFailure (text source_lang target_lang : String) :
    Option ValErr :=
  let text := pyStrip text
  if text = "" then some .emptyText
  else if 10 < (pySplit text).length then some .wordLimitExceeded
  else
    let s := normCode source_lang
    let g := normCode target_lang
    if ¬ TranslationService.supportedPair (s ++ "-" ++ g) then
      some .unsupportedPair
    else none

/-- The first failure reported for a raw single-translation request:
the head of the pydantic error list, or — when the schema passes — the
first failing business check in `translate`, applied to the validated
(stripped, normalized) field values. -/
def requestFirstFailure (text source_lang target_lang : String) :
    Option ValErr :=
  match validateRequest text source_lang target_lang with
  | e :: _ => some e
  | [] =>
    translateFirstFailure (pyStrip text) (normCode source_lang)
      (normCode target_lang)

/-- Modelled from the amended wording of the ordering claim: the checks
run in this order, short-circuiting at the first failure — text character
bounds (at least 1, at most 500 characters), trimmed text non-empty, word
count at most 10, source-code membership, target-code membership,
source ≠ target, pair present in the registry. -/
def claimedOrderFirstFailure (text source_lang target_lang : String) :
    Option ValErr :=
  if text.length < 1 then some .stringTooShort
  else if 500 < text.length then some .textTooLong
  else if pyStrip text = "" then some .emptyText
  else if 10 < word_count text then some .wordLimitExceeded
  else if ¬ allowed_langs.contains (normCode source_lang) then
    some .unknownLanguageCode
  else if ¬ allowed_langs.contains (normCode target_lang) then
    some .unknownLanguageCode
  else if normCode target_lang = normCode source_lang then
    some .identicalLanguages
  else if ¬ TranslationService.supportedPair
      (normCode source_lang ++ "-" ++ normCode target_lang) then
    some .unsupportedPair
  else none

/-! ### The HTTP handlers (`app/main.py`) -/

namespace Main

/-- `TranslationResponse` (`app/models/schemas.py`). -/
structure TranslationResponse where
  translated_text : String
  source_lang : String
  target_lang : String
  original_text : String
deriving DecidableEq, Repr

/-- `BatchTranslationResponse` (`app/models/schemas.py`). -/
structure BatchTranslationResponse where
  translations : List TranslationResponse
  total_count : Nat
deriving DecidableEq, Repr

/-- What a request produces at the HTTP boundary: a success body, or one
of the handled failure shapes (FastAPI body-validation failure, the
`ValueError` handler, the wrapped `TranslationError`, or
`ServiceNotAvailableError` when the service is not initialized). -/
inductive HttpOutcome where
  | success (resp : TranslationResponse)
  | batchSuccess (resp : BatchTranslationResponse)
  | requestValidationError (errs : List ValErr)
  | validationError (message : String)
  | translationError (message : String)
  | serviceUnavailable (message : String)
deriving DecidableEq, Repr

/-- The HTTP-style status each outcome is surfaced with (422 for body
validation per FastAPI, 400 for the `ValueError` handler, 500 for
translation errors, 503 for an uninitialized service). -/
def statusOf : HttpOutcome → Nat
  | .success _ => 200
  | .batchSuccess _ => 200
  | .requestValidationError _ => 422
  | .validationError _ => 400
  | .translationError _ => 500
  | .serviceUnavailable _ => 503

open TranslationService in
/-- The `/translate` handler: FastAPI first validates the body against
`TranslationRequest`; the handler then checks the service is initialized,
calls `TranslationService.translate` on the validated fields, re-raises
`ValueError`s to the validation handler and wraps any other exception into
`TranslationError("Translation failed")`. -/
def translate_text (env : LoadEnv) (service : Option ServiceState)
    (text source_lang target_lang : String) :
    Option ServiceState × HttpOutcome :=
  match validateRequest text source_lang target_lang with
  | e :: es => (service, .requestValidationError (e :: es))
  | [] =>
    match service with
    | none => (none, .serviceUnavailable "Translation service not initialized")
    | some st =>
      let vtext := pyStrip text
      let vsrc := normCode source_lang
      let vtgt := normCode target_lang
      match TranslationService.translate env st vtext vsrc vtgt with
      | (st', .ok translated_text) =>
        (some st', .success ⟨translated_text, vsrc, vtgt, vtext⟩)
      | (st', .error (.valueError m)) => (some st', .validationError m)
      | (st', .error (.exception _)) =>
        (some st', .translationError "Translation failed")

open TranslationService in
/-- The loop body of the `/translate/batch` handler: translate each text
in order, threading the service state, and append a response carrying the
text as `original_text`; the first exception aborts the loop. -/
def batchLoop (env : LoadEnv) (st : ServiceState) (src tgt : String) :
    List String → ServiceState × Except PyErr (List TranslationResponse)
  | [] => (st, .ok [])
  | t :: rest =>
    match TranslationService.translate env st t src tgt with
    | (st', .error e) => (st', .error e)
    | (st', .ok out) =>
      match batchLoop env st' src tgt rest with
      | (st'', .error e) => (st'', .error e)
      | (st'', .ok rs) => (st'', .ok (⟨out, src, tgt, t⟩ :: rs))

open TranslationService in
/-- The `/translate/batch` handler: body validation against
`BatchTranslationRequest` (which strips every text), then the loop over
the validated texts, echoing `len(translations)` as `total_count`;
`ValueError`s are re-raised and other exceptions become
`TranslationError("Batch translation failed")`. -/
def translate_batch (env : LoadEnv) (service : Option ServiceState)
    (texts : List String) (source_lang target_lang : String) :
    Option ServiceState × HttpOutcome :=
  match validateBatchRequest texts source_lang target_lang with
  | e :: es => (service, .requestValidationError (e :: es))
  | [] =>
    match service with
    | none => (none, .serviceUnavailable "Translation service not initialized")
    | some st =>
      let vtexts := texts.map pyStrip
      let vsrc := normCode source_lang
      let vtgt := normCode target_lang
      match batchLoop env st vsrc vtgt vtexts with
      | (st', .ok rs) => (some st', .batchSuccess ⟨rs, rs.length⟩)
      | (st', .error (.valueError m)) => (some st', .validationError m)
      | (st', .error (.exception _)) =>
        (some st', .translationError "Batch translation failed")

end Main

/-! ### Constructor signature (`TranslationService.__init__`)

`app/core/service_init.py` and `tests/test_translation_service.py` call
`TranslationService(lazy_loading=...)`, but the constructor in
`app/services/translation_service.py` is `def __init__(self):`.  We model
Python's keyword-argument binding against that signature. -/

namespace TranslationService

/-- The parameter names of `__init__` besides `self` (there are none). -/
def initParamNames : List String := []

/-- A `TypeError` raised when a call passes a keyword argument the callee
does not declare. -/
inductive PyCallErr where
  | typeErrorUnexpectedKeyword (kw : String)
deriving DecidableEq, Repr

/-- Calling `TranslationService(...)` with the given keyword arguments:
Python raises `TypeError` at the first keyword that is not a declared
parameter, otherwise `__init__` runs and produces the empty-cache state. -/
def callInit (kwargs : List String) : Except PyCallErr ServiceState :=
  match kwargs.find? (fun k => !(initParamNames.contains k)) with
  | some k => .error (.typeErrorUnexpectedKeyword k)
  | none => .ok init

end TranslationService

/-! ### Interleaved first-use loads (`TranslationService._load_model`)

`_load_model` has no lock: it checks `language_pair in self._models`,
constructs the model, and then inserts into the caches as three separate
atomic effects.  We model two concurrent callers for the same pair as an
explicit interleaving of those steps; the scheduler chooses at each step
which caller advances. -/

namespace ConcurrentLoad

/-- Program counter of one caller inside `_load_model`: before the cache
check, between check and load, between load and cache insert, and
finished. -/
inductive Pc where
  | start
  | checked
  | loaded
  | done
deriving DecidableEq, Repr

/-- Two callers racing on the same language pair: whether the pair is in
the cache, how many underlying loads have executed, and each caller's
program counter. -/
structure Sys where
  cached : Bool
  loadCount : Nat
  pc0 : Pc
  pc1 : Pc
deriving DecidableEq, Repr

/-- One atomic step of the given caller: the cache-membership check (a hit
finishes the call immediately), the expensive load, or the cache insert. -/
def stepThread (cached : Bool) (loadCount : Nat) : Pc → Bool × Nat × Pc
  | .start => if cached then (cached, loadCount, .done) else (cached, loadCount, .checked)
  | .checked => (cached, loadCount + 1, .loaded)
  | .loaded => (true, loadCount, .done)
  | .done => (cached, loadCount, .done)

/-- Advance caller 0 (`tid = false`) or caller 1 (`tid = true`). -/
def step (s : Sys) (tid : Bool) : Sys :=
  if tid then
    let (c, n, p) := stepThread s.cached s.loadCount s.pc1
    ⟨c, n, s.pc0, p⟩
  else
    let (c, n, p) := stepThread s.cached s.loadCount s.pc0
    ⟨c, n, p, s.pc1⟩

/-- Run a schedule (the list of caller ids picked at each step). -/
def run (s : Sys) (sched : List Bool) : Sys := sched.foldl step s

/-- Both callers at the start, nothing cached, no loads yet. -/
def startState : Sys := ⟨false, 0, .start, .start⟩

/-- Both callers at the start on a pair whose model is already cached. -/
def cachedState : Sys := ⟨true, 0, .start, .start⟩

/-- The interleaving in which both callers pass the cache check before
either inserts. -/
def raceSched : List Bool := [false, true, false, false, true, true]

/-- The schedule in which caller 0 finishes before caller 1 starts. -/
def serialSched : List Bool := [false, false, false, true, true, true]

end ConcurrentLoad

/-! ### Heap model of `get_supported_language_pairs`
(`app/services/translation_service.py`)

`get_supported_language_pairs` returns `self.MODEL_MAPPING.copy()`.  To
state that caller-side mutation of the returned dict cannot reach the
registry we model dict objects on a small heap with addresses. -/

namespace RegistryCopy

/-- A heap of Python dict objects: contents per address, plus the next
fresh address. -/
structure Store where
  heap : List (Nat × List (String × String))
  next : Nat
deriving DecidableEq, Repr

/-- The address of the class-level `MODEL_MAPPING` dict. -/
def registryAddr : Nat := 0

/-- The initial heap: only `MODEL_MAPPING` is allocated. -/
def initStore : Store := ⟨[(registryAddr, TranslationService.MODEL_MAPPING)], 1⟩

/-- Contents of the dict at an address (empty if unallocated). -/
def Store.entriesAt (σ : Store) (a : Nat) : List (String × String) :=
  (σ.heap.lookup a).getD []

/-- `d.copy()`: allocate a fresh dict with the same entries. -/
def dict_copy (σ : Store) (a : Nat) : Nat × Store :=
  (σ.next, ⟨(σ.next, σ.entriesAt a) :: σ.heap, σ.next + 1⟩)

/-- `get_supported_language_pairs`: `return self.MODEL_MAPPING.copy()`. -/
def get_supported_language_pairs (σ : Store) : Nat × Store :=
  dict_copy σ registryAddr

/-- An arbitrary caller-side mutation: overwrite the entries of the dict
at address `a` (insertion, update and deletion are all instances). -/
def Store.mutateAt (σ : Store) (a : Nat) (d : List (String × String)) : Store :=
  ⟨σ.heap.map (fun kv => if kv.1 = a then (a, d) else kv), σ.next⟩

/-- Pair-membership as `translate` checks it, read from the heap-resident
registry dict. -/
def pairSupportedIn (σ : Store) (p : String) : Bool :=
  ((σ.entriesAt registryAddr).lookup p).isSome

end RegistryCopy

/-! ### Concrete collaborator environments

Used to instantiate the theorems at concrete inputs: a well-behaved model
collaborator and ones failing at each stage. -/

namespace TranslationService

/-- A collaborator for which every stage succeeds; inference echoes the
input text. -/
def envOk : LoadEnv :=
  ⟨fun _ => .ok 1, fun _ => .ok 2, fun n => .ok n, fun _ _ t => .ok t⟩

/-- Tokenizer construction fails with the given cause. -/
def envTokFail (cause : String) : LoadEnv :=
  ⟨fun _ => .error cause, fun _ => .ok 2, fun n => .ok n, fun _ _ t => .ok t⟩

/-- Model construction fails with the given cause. -/
def envModelFail (cause : String) : LoadEnv :=
  ⟨fun _ => .ok 1, fun _ => .error cause, fun n => .ok n, fun _ _ t => .ok t⟩

/-- Device placement fails with the given cause. -/
def envDeviceFail (cause : String) : LoadEnv :=
  ⟨fun _ => .ok 1, fun _ => .ok 2, fun _ => .error cause, fun _ _ t => .ok t⟩

/-- Loading succeeds but the tokenize/generate/decode step fails with the
given cause. -/
def envRunFail (cause : String) : LoadEnv :=
  ⟨fun _ => .ok 1, fun _ => .ok 2, fun n => .ok n, fun _ _ _ => .error cause⟩

end TranslationService

/-! ## Lemmas and theorems -/

/-! #### Idempotence of stripping and normalisation

`translate` re-strips the already stripped request text and re-normalises
the already normalised language codes, so several theorems need these
operations to be idempotent. -/

theorem dropWhile_dropWhile_same (p : Char → Bool) (l : List Char) :
    (l.dropWhile p).dropWhile p = l.dropWhile p := by
  induction l with
  | nil => rfl
  | cons a t ih =>
    by_cases h : p a
    · simp [List.dropWhile, h, ih]
    · simp [List.dropWhile, h]

theorem dropWhile_append_last (p : Char → Bool) (a : Char) (h : p a = false)
    (xs : List Char) :
    List.dropWhile p (xs ++ [a]) = List.dropWhile p xs ++ [a] := by
  induction xs with
  | nil => simp [List.dropWhile, h]
  | cons b t ih =>
    by_cases hb : p b
    · simp [List.dropWhile, hb, ih]
    · simp [List.dropWhile, hb]

theorem lstripData_head_cases (l : List Char) :
    lstripData l = [] ∨
      ∃ a t, lstripData l = a :: t ∧ a.isWhitespace = false := by
  induction l with
  | nil => exact Or.inl rfl
  | cons a t ih =>
    by_cases h : a.isWhitespace
    · simpa [lstripData, List.dropWhile, h] using ih
    · exact Or.inr ⟨a, t, by simp [lstripData, List.dropWhile, h], by simp [h]⟩

theorem rstripData_cons_of_head (a : Char) (t : List Char)
    (h : a.isWhitespace = false) :
    rstripData (a :: t) = a :: rstripData t := by
  unfold rstripData
  rw [show (a :: t).reverse = t.reverse ++ [a] by simp,
    dropWhile_append_last _ _ h]
  simp

theorem rstripData_rstripData (l : List Char) :
    rstripData (rstripData l) = rstripData l := by
  unfold rstripData
  rw [List.reverse_reverse, dropWhile_dropWhile_same]

theorem lstripData_rstripData_lstripData (l : List Char) :
    lstripData (rstripData (lstripData l)) = rstripData (lstripData l) := by
  rcases lstripData_head_cases l with h | ⟨a, t, h, ha⟩
  · rw [h]; rfl
  · rw [h, rstripData_cons_of_head _ _ ha]
    simp [lstripData, List.dropWhile, ha]

theorem pyStrip_pyStrip (s : String) : pyStrip (pyStrip s) = pyStrip s := by
  unfold pyStrip
  rw [lstripData_rstripData_lstripData, rstripData_rstripData]

/-- Re-normalising a code that already passed the membership check is a
no-op, because each member of `allowed_langs` is a fixed point of
`normCode`. -/
theorem normCode_of_allowed (s : String)
    (h : allowed_langs.contains (normCode s) = true) :
    normCode (normCode s) = normCode s := by
  have h3 : normCode s = "he" ∨ normCode s = "ru" ∨ normCode s = "en" := by
    have hmem : normCode s ∈ allowed_langs := List.elem_iff.mp h
    simpa [allowed_langs] using hmem
  rcases h3 with h' | h' | h' <;> rw [h'] <;> decide

/-- Looking up an address other than the mutated one is unaffected. -/
theorem RegistryCopy.lookup_map_mutate_ne (l : List (Nat × List (String × String)))
    (a b : Nat) (d : List (String × String)) (hne : a ≠ b) :
    (l.map (fun kv => if kv.1 = a then (a, d) else kv)).lookup b = l.lookup b := by
  induction l with
  | nil => rfl
  | cons kv t ih =>
    simp only [List.map_cons]
    by_cases hk : kv.1 = a
    · rw [if_pos hk]
      have hba : (b == a) = false := beq_eq_false_iff_ne.mpr (Ne.symm hne)
      simp [List.lookup, hba, hk, ih]
    · rw [if_neg hk]
      cases hbk : b == kv.1
      · simp [List.lookup, hbk, ih]
      · simp [List.lookup, hbk]

namespace TranslationService

/-- C1: if loading the model for a pair fails (an exception during
tokenizer construction, model construction or device placement), the pair
is afterwards absent from the cache: `is_model_loaded` is `False` and
neither `self._models` nor `self._tokenizers` contains an entry for it (no
partial state). -/
theorem load_failure_leaves_no_partial_cache
    (env : LoadEnv) (st : ServiceState) (p e : String)
    (haligned : ∀ q, (st.models.lookup q).isSome = (st.tokenizers.lookup q).isSome)
    (hfail : (load_model env st p).err = some (PyErr.exception e)) :
    is_model_loaded (load_model env st p).state p = false
      ∧ (load_model env st p).state.models.lookup p = none
      ∧ (load_model env st p).state.tokenizers.lookup p = none := by
  by_cases h1 : (st.models.lookup p).isSome
  · simp [load_model, h1] at hfail
  · by_cases h2 : supportedPair p
    · rcases htok : env.fromPretrainedTokenizer ((MODEL_MAPPING.lookup p).getD "")
        with e1 | tok
      · simp only [load_model, h1, h2, htok] at hfail ⊢
        simp only [Bool.false_eq_true, if_false, not_true_eq_false, if_neg,
          not_false_eq_true, if_true]
        refine ⟨?_, ?_, ?_⟩
        · exact Bool.eq_false_iff.mpr h1
        · exact Option.not_isSome_iff_eq_none.mp h1
        · exact Option.not_isSome_iff_eq_none.mp (by rw [← haligned p]; exact h1)
      · rcases hmod : env.fromPretrainedModel ((MODEL_MAPPING.lookup p).getD "")
          with e2 | model
        · simp only [load_model, h1, h2, htok, hmod] at hfail ⊢
          simp only [Bool.false_eq_true, if_false, not_true_eq_false, if_neg,
            not_false_eq_true, if_true]
          refine ⟨?_, ?_, ?_⟩
          · exact Bool.eq_false_iff.mpr h1
          · exact Option.not_isSome_iff_eq_none.mp h1
          · exact Option.not_isSome_iff_eq_none.mp (by rw [← haligned p]; exact h1)
        · rcases hdev : env.toDevice model with e3 | model'
          · simp only [load_model, h1, h2, htok, hmod, hdev] at hfail ⊢
            simp only [Bool.false_eq_true, if_false, not_true_eq_false, if_neg,
              not_false_eq_true, if_true]
            refine ⟨?_, ?_, ?_⟩
            · exact Bool.eq_false_iff.mpr h1
            · exact Option.not_isSome_iff_eq_none.mp h1
            · exact Option.not_isSome_iff_eq_none.mp (by rw [← haligned p]; exact h1)
          · simp [load_model, h1, h2, htok, hmod, hdev] at hfail
    · simp [load_model, h1, h2] at hfail

/-- Witness for C1: a concrete failing tokenizer load for `"en-he"` on the
fresh service state. -/
theorem load_failure_leaves_no_partial_cache_witness :
    is_model_loaded (load_model (envTokFail "boom") init "en-he").state "en-he" = false
      ∧ (load_model (envTokFail "boom") init "en-he").state.models.lookup "en-he" = none
      ∧ (load_model (envTokFail "boom") init "en-he").state.tokenizers.lookup "en-he" = none :=
  load_failure_leaves_no_partial_cache (envTokFail "boom") init "en-he"
    "Model loading failed: boom" (fun _ => rfl) (by decide)

end TranslationService

namespace TranslationService

/-- C2: after a first successful load of a not-yet-cached pair, a second
call to `_load_model` is a pure cache hit: it returns with the cache
unchanged and performs no additional underlying load, so exactly one load
is executed in total (the first call's). -/
theorem second_load_is_cache_hit
    (env : LoadEnv) (st : ServiceState) (p : String)
    (hmiss : is_model_loaded st p = false)
    (hok : (load_model env st p).err = none) :
    (load_model env st p).performedLoad = true
      ∧ load_model env (load_model env st p).state p
          = ⟨(load_model env st p).state, false, none⟩ := by
  have h1 : ¬ (st.models.lookup p).isSome = true :=
    fun hc => by rw [show (st.models.lookup p).isSome = is_model_loaded st p
      from rfl, hmiss] at hc; cases hc
  by_cases h2 : supportedPair p
  · rcases htok : env.fromPretrainedTokenizer ((MODEL_MAPPING.lookup p).getD "")
      with e1 | tok
    · simp [load_model, h1, h2, htok] at hok
    · rcases hmod : env.fromPretrainedModel ((MODEL_MAPPING.lookup p).getD "")
        with e2 | model
      · simp [load_model, h1, h2, htok, hmod] at hok
      · rcases hdev : env.toDevice model with e3 | model'
        · simp [load_model, h1, h2, htok, hmod, hdev] at hok
        · constructor
          · simp [load_model, h1, h2, htok, hmod, hdev]
          · have hstate : (load_model env st p).state
                = ⟨(p, model') :: st.models, (p, tok) :: st.tokenizers⟩ := by
              simp [load_model, h1, h2, htok, hmod, hdev]
            rw [hstate]
            simp [load_model, List.lookup]
  · simp [load_model, h1, h2] at hok

/-- Witness for C2: a concrete successful first load of `"en-he"` on the
fresh state, followed by the cache-hit second call. -/
theorem second_load_is_cache_hit_witness :
    (load_model envOk init "en-he").performedLoad = true
      ∧ load_model envOk (load_model envOk init "en-he").state "en-he"
          = ⟨(load_model envOk init "en-he").state, false, none⟩ :=
  second_load_is_cache_hit envOk init "en-he" (by decide) (by decide)

end TranslationService

/-- C5 (evaluation at the failing input): the constructor of
`TranslationService` declares no parameter besides `self`, so the call
`TranslationService(lazy_loading=...)` made by `app/core/service_init.py`
and by `tests/test_translation_service.py` raises `TypeError`; and the
constructor that does exist starts with empty caches, so no registered
pair is loaded at construction. -/
theorem constructor_rejects_lazy_toggle :
    TranslationService.callInit ["lazy_loading"]
        = Except.error (TranslationService.PyCallErr.typeErrorUnexpectedKeyword "lazy_loading")
      ∧ TranslationService.init.models = []
      ∧ TranslationService.MODEL_MAPPING.all
          (fun kv => !(TranslationService.is_model_loaded TranslationService.init kv.1))
          = true :=
  ⟨rfl, rfl, by decide⟩

namespace ConcurrentLoad

/-- C9 counterexample: `_load_model` has no mutual-exclusion guard, so in
the interleaving where both first-use callers pass the cache-membership
check before either inserts, two underlying loads execute for the same
pair — the claimed "at most one load per pair under concurrent first-use"
is false for this code. -/
theorem interleaved_first_use_double_load :
    (run startState raceSched).loadCount = 2
      ∧ ¬ (run startState raceSched).loadCount ≤ 1
      ∧ (run startState raceSched).pc0 = Pc.done
      ∧ (run startState raceSched).pc1 = Pc.done := by
  decide

/-- C9 amended: the check-then-load-then-insert sequence is unsynchronized;
when the two first-use calls happen to be serialized only one load
executes (the second call is a cache hit), calls for an already-cached pair
perform no load at all, but the interleaved schedule executes two loads
for the same pair. -/
theorem unsynchronized_load_schedules :
    (run startState serialSched).loadCount = 1
      ∧ (run cachedState [false, true]).loadCount = 0
      ∧ (run startState raceSched).loadCount = 2 := by
  decide

end ConcurrentLoad

namespace RegistryCopy

/-- C10: `get_supported_language_pairs` returns a fresh copy of
`MODEL_MAPPING`: the returned dict holds the registry's entries at a new
address, and overwriting the returned dict with arbitrary contents leaves
the registry dict — and hence the pair-membership test `translate` relies
on — unchanged. -/
theorem registry_unaffected_by_mutating_returned_copy
    (σ : Store) (d' : List (String × String)) (q : String)
    (hfresh : σ.next ≠ registryAddr) :
    ((get_supported_language_pairs σ).2.entriesAt (get_supported_language_pairs σ).1
        = σ.entriesAt registryAddr)
      ∧ (((get_supported_language_pairs σ).2.mutateAt
            (get_supported_language_pairs σ).1 d').entriesAt registryAddr
          = σ.entriesAt registryAddr)
      ∧ (pairSupportedIn
            ((get_supported_language_pairs σ).2.mutateAt
              (get_supported_language_pairs σ).1 d') q
          = pairSupportedIn σ q) := by
  have hr : (registryAddr == σ.next) = false :=
    beq_eq_false_iff_ne.mpr (Ne.symm hfresh)
  have key : Store.entriesAt
      (((get_supported_language_pairs σ).2).mutateAt
        (get_supported_language_pairs σ).1 d') registryAddr
      = σ.entriesAt registryAddr := by
    simp only [get_supported_language_pairs, dict_copy, Store.mutateAt,
      Store.entriesAt, List.map_cons]
    simp only [eq_self_iff_true, if_true]
    simp only [List.lookup, hr]
    rw [lookup_map_mutate_ne σ.heap σ.next registryAddr d' hfresh]
  refine ⟨?_, key, ?_⟩
  · simp only [get_supported_language_pairs, dict_copy, Store.entriesAt,
      List.lookup, beq_self_eq_true]
    rfl
  · simp only [pairSupportedIn, key]

/-- Witness for C10: mutating (here: emptying) the copy returned on the
initial heap leaves the registry with its four pairs and `"en-he"` still
supported. -/
theorem registry_unaffected_by_mutating_returned_copy_witness :
    ((get_supported_language_pairs initStore).2.entriesAt
          (get_supported_language_pairs initStore).1
        = initStore.entriesAt registryAddr)
      ∧ (((get_supported_language_pairs initStore).2.mutateAt
            (get_supported_language_pairs initStore).1 []).entriesAt registryAddr
          = initStore.entriesAt registryAddr)
      ∧ (pairSupportedIn
            ((get_supported_language_pairs initStore).2.mutateAt
              (get_supported_language_pairs initStore).1 []) "en-he"
          = pairSupportedIn initStore "en-he") :=
  registry_unaffected_by_mutating_returned_copy initStore [] "en-he" (by decide)

end RegistryCopy

/-- C6: a text of exactly 10 words passes the word-count check of
`validate_text`; a text of 11 words fails it, and the failure message
reports both the actual count "11" and the limit "10". -/
theorem word_limit_boundary (t u : String)
    (h10 : word_count t = 10) (h11 : word_count u = 11) :
    word_limit_error t = none
      ∧ word_limit_error u = some (wordLimitMessage 11)
      ∧ strContains (wordLimitMessage 11) "11" = true
      ∧ strContains (wordLimitMessage 11) "10" = true := by
  refine ⟨?_, ?_, by decide, by decide⟩
  · simp [word_limit_error, h10]
  · simp [word_limit_error, h11]

/-- Witness for C6: a concrete 10-word text and a concrete 11-word text. -/
theorem word_limit_boundary_witness :
    word_limit_error "a b c d e f g h i j" = none
      ∧ word_limit_error "a b c d e f g h i j k" = some (wordLimitMessage 11)
      ∧ strContains (wordLimitMessage 11) "11" = true
      ∧ strContains (wordLimitMessage 11) "10" = true :=
  word_limit_boundary "a b c d e f g h i j" "a b c d e f g h i j k"
    (by decide) (by decide)

/-- C7: a text of exactly 500 characters passes both pydantic character
bounds; a text of 501 characters is rejected by request validation with
the `TextTooLong` failure before any model work (the handler returns the
validation outcome with the service state untouched and the collaborator
never consulted). -/
theorem char_limit_boundary (t u : String)
    (env : TranslationService.LoadEnv) (st : TranslationService.ServiceState)
    (h500 : t.length = 500) (h501 : u.length = 501) :
    (validate_text t ≠ Except.error ValErr.stringTooShort
        ∧ validate_text t ≠ Except.error ValErr.textTooLong)
      ∧ validate_text u = Except.error ValErr.textTooLong
      ∧ requestFirstFailure u "en" "he" = some ValErr.textTooLong
      ∧ Main.translate_text env (some st) u "en" "he"
          = (some st, Main.HttpOutcome.requestValidationError [ValErr.textTooLong]) := by
  have hu : validate_text u = Except.error ValErr.textTooLong := by
    simp [validate_text, h501]
  have hen : validate_language_codes "en" = Except.ok "en" := rfl
  have hhe : validate_language_codes "he" = Except.ok "he" := rfl
  have hneq : (("he" : String) == "en") = false := by decide
  have hv : validateRequest u "en" "he" = [ValErr.textTooLong] := by
    simp [validateRequest, hu, hen, hhe, hneq]
  refine ⟨⟨?_, ?_⟩, hu, ?_, ?_⟩
  · simp only [validate_text, h500]
    norm_num
    split_ifs <;> simp
  · simp only [validate_text, h500]
    norm_num
    split_ifs <;> simp
  · simp [requestFirstFailure, hv]
  · simp [Main.translate_text, hv]

/-- Witness for C7: concrete texts of 500 and 501 repeated characters on
the well-behaved collaborator and the fresh state. -/
theorem char_limit_boundary_witness :
    (validate_text ⟨List.replicate 500 'a'⟩ ≠ Except.error ValErr.stringTooShort
        ∧ validate_text ⟨List.replicate 500 'a'⟩ ≠ Except.error ValErr.textTooLong)
      ∧ validate_text ⟨List.replicate 501 'a'⟩ = Except.error ValErr.textTooLong
      ∧ requestFirstFailure ⟨List.replicate 501 'a'⟩ "en" "he"
          = some ValErr.textTooLong
      ∧ Main.translate_text TranslationService.envOk (some TranslationService.init)
            ⟨List.replicate 501 'a'⟩ "en" "he"
          = (some TranslationService.init,
             Main.HttpOutcome.requestValidationError [ValErr.textTooLong]) :=
  char_limit_boundary ⟨List.replicate 500 'a'⟩ ⟨List.replicate 501 'a'⟩
    TranslationService.envOk TranslationService.init
    (by rw [show (⟨List.replicate 500 'a'⟩ : String).length
          = (List.replicate 500 'a').length from rfl, List.length_replicate])
    (by rw [show (⟨List.replicate 501 'a'⟩ : String).length
          = (List.replicate 501 'a').length from rfl, List.length_replicate])

/-- The batch loop, when it succeeds, produces one response per input, in
input order, each carrying its input as `original_text`. -/
theorem batchLoop_ok_original_texts
    (env : TranslationService.LoadEnv) (src tgt : String) :
    ∀ (texts : List String) (st st' : TranslationService.ServiceState)
      (rs : List Main.TranslationResponse),
      Main.batchLoop env st src tgt texts = (st', Except.ok rs) →
      rs.map (fun r => r.original_text) = texts ∧ rs.length = texts.length := by
  intro texts
  induction texts with
  | nil =>
    intro st st' rs h
    simp only [Main.batchLoop] at h
    obtain ⟨-, h2⟩ := Prod.mk.injEq .. ▸ h
    cases h
    simp
  | cons t rest ih =>
    intro st st' rs h
    simp only [Main.batchLoop] at h
    rcases htr : TranslationService.translate env st t src tgt with ⟨st1, res⟩
    rw [htr] at h
    cases res with
    | error e => simp at h
    | ok out =>
      dsimp only at h
      rcases hbl : Main.batchLoop env st1 src tgt rest with ⟨st2, res2⟩
      rw [hbl] at h
      cases res2 with
      | error e => simp at h
      | ok rs2 =>
        simp only [Prod.mk.injEq, Except.ok.injEq] at h
        obtain ⟨h1, h2⟩ := h
        subst h1
        subst h2
        have := ih st1 st2 rs2 hbl
        simp [this.1, this.2]

/-- C8: a successful batch translation returns exactly one entry per
(validated) input text, in input order, each entry carrying the
corresponding request text as its `original_text`, with `total_count`
equal to the number of inputs.  (The schema validator stores each raw text
stripped, so the request texts the handler loops over are
`texts.map pyStrip`.) -/
theorem batch_preserves_positional_correspondence
    (env : TranslationService.LoadEnv)
    (service srv' : Option TranslationService.ServiceState)
    (texts : List String) (source_lang target_lang : String)
    (resp : Main.BatchTranslationResponse)
    (h : Main.translate_batch env service texts source_lang target_lang
        = (srv', Main.HttpOutcome.batchSuccess resp)) :
    resp.translations.map (fun r => r.original_text) = texts.map pyStrip
      ∧ resp.translations.length = texts.length
      ∧ resp.total_count = texts.length := by
  unfold Main.translate_batch at h
  rcases hv : validateBatchRequest texts source_lang target_lang with - | ⟨e, es⟩
  · rw [hv] at h
    cases service with
    | none => simp at h
    | some st =>
      simp only at h
      rcases hbl : Main.batchLoop env st (normCode source_lang)
          (normCode target_lang) (texts.map pyStrip) with ⟨st2, res⟩
      rw [hbl] at h
      cases res with
      | ok rs =>
        simp only [Prod.mk.injEq, Main.HttpOutcome.batchSuccess.injEq] at h
        obtain ⟨-, h2⟩ := h
        subst h2
        have hm := batchLoop_ok_original_texts env (normCode source_lang)
          (normCode target_lang) (texts.map pyStrip) st st2 rs hbl
        refine ⟨hm.1, ?_, ?_⟩ <;> simp [hm.2]
      | error e =>
        cases e with
        | valueError m => simp at h
        | exception m => simp at h
  · rw [hv] at h
    simp at h

/-- Witness for C8: the two-text batch from the spec's example on the
well-behaved collaborator. -/
theorem batch_preserves_positional_correspondence_witness :
    (Main.BatchTranslationResponse.mk
        [⟨"Good morning", "en", "he", "Good morning"⟩,
         ⟨"Thank you", "en", "he", "Thank you"⟩] 2).translations.map
          (fun r => r.original_text)
        = ["Good morning", "Thank you"].map pyStrip
      ∧ (Main.BatchTranslationResponse.mk
        [⟨"Good morning", "en", "he", "Good morning"⟩,
         ⟨"Thank you", "en", "he", "Thank you"⟩] 2).translations.length
        = (["Good morning", "Thank you"] : List String).length
      ∧ (Main.BatchTranslationResponse.mk
        [⟨"Good morning", "en", "he", "Good morning"⟩,
         ⟨"Thank you", "en", "he", "Thank you"⟩] 2).total_count
        = (["Good morning", "Thank you"] : List String).length :=
  batch_preserves_positional_correspondence TranslationService.envOk
    (some TranslationService.init)
    (some ⟨[("en-he", 2)], [("en-he", 1)]⟩)
    ["Good morning", "Thank you"] "en" "he"
    (Main.BatchTranslationResponse.mk
        [⟨"Good morning", "en", "he", "Good morning"⟩,
         ⟨"Thank you", "en", "he", "Thank you"⟩] 2)
    (by decide)

open TranslationService in
/-- C4 counterexample: at the concrete request "Hello world" en→he from
the fresh state, a model-load failure produces exactly the same boundary
outcome as an inference-execution failure — the 500-equivalent
`TranslationError("Translation failed")` — and not a 503-equivalent
service-dependency category, so load failures are not surfaced as a
distinct category. -/
theorem load_failure_not_distinct_counterexample :
    (Main.translate_text (envTokFail "weights unavailable") (some init)
          "Hello world" "en" "he").2
        = (Main.translate_text (envRunFail "generation crashed") (some init)
          "Hello world" "en" "he").2
      ∧ Main.statusOf (Main.translate_text (envTokFail "weights unavailable")
          (some init) "Hello world" "en" "he").2 = 500
      ∧ Main.statusOf (Main.translate_text (envTokFail "weights unavailable")
          (some init) "Hello world" "en" "he").2 ≠ 503 :=
  ⟨rfl, rfl, by decide⟩

open TranslationService in
/-- C4 amended: whatever the underlying cause, a load failure at any stage
(tokenizer construction, model construction, device placement) is wrapped
by `translate` into the generic `Exception("Translation failed: ...")` and
surfaced by the handler as the 500-equivalent
`TranslationError("Translation failed")` — the same outcome an
inference-execution failure produces, so the two are indistinguishable at
the boundary and neither is a 503. -/
theorem load_failure_surfaced_as_generic_500 (loadCause runCause : String) :
    (Main.translate_text (envTokFail loadCause) (some init)
          "Hello world" "en" "he").2
        = Main.HttpOutcome.translationError "Translation failed"
      ∧ (Main.translate_text (envModelFail loadCause) (some init)
          "Hello world" "en" "he").2
        = Main.HttpOutcome.translationError "Translation failed"
      ∧ (Main.translate_text (envDeviceFail loadCause) (some init)
          "Hello world" "en" "he").2
        = Main.HttpOutcome.translationError "Translation failed"
      ∧ (Main.translate_text (envRunFail runCause) (some init)
          "Hello world" "en" "he").2
        = Main.HttpOutcome.translationError "Translation failed"
      ∧ Main.statusOf (Main.translate_text (envTokFail loadCause) (some init)
          "Hello world" "en" "he").2 = 500 :=
  ⟨rfl, rfl, rfl, rfl, rfl⟩

/-- C3 counterexample: for the input `text = " "`, `source_lang = "zz"`,
`target_lang = "he"` — empty text together with an unknown language code —
validation does not short-circuit with `UnknownLanguageCode` first as
claimed: pydantic collects both failures with the text failure first, and
the first reported failure is `EmptyText`. -/
theorem validation_order_counterexample :
    validateRequest " " "zz" "he" = [ValErr.emptyText, ValErr.unknownLanguageCode]
      ∧ requestFirstFailure " " "zz" "he" = some ValErr.emptyText
      ∧ requestFirstFailure " " "zz" "he" ≠ some ValErr.unknownLanguageCode :=
  ⟨rfl, rfl, by decide⟩

/-- C3 amended: the first failure reported for a request follows the
field order of the code, not the order the spec claims — text checks
first (character bounds, then empty-after-trim, then word count), then
source-code membership, then target-code membership, then the
identical-languages check, and the registry-pair check last (in the
service, only once the schema passed). -/
theorem validation_order_follows_field_order
    (text source_lang target_lang : String) :
    requestFirstFailure text source_lang target_lang
      = claimedOrderFirstFailure text source_lang target_lang := by
  unfold requestFirstFailure validateRequest claimedOrderFirstFailure
  cases hvt : validate_text text with
  | error e =>
    simp only [List.cons_append, List.nil_append]
    unfold validate_text at hvt
    split_ifs at hvt with h1 h2 h3 h4
    · injection hvt with he; subst he; simp [h1]
    · injection hvt with he; subst he; simp [h1, h2]
    · injection hvt with he; subst he; simp [h1, h2, h3]
    · injection hvt with he; subst he; simp [h1, h2, h3, h4]
  | ok vtext =>
    have htext := hvt
    unfold validate_text at htext
    split_ifs at htext with h1 h2 h3 h4
    injection htext with hvtx
    simp only [List.nil_append]
    cases hs : validate_language_codes source_lang with
    | error es =>
      have hsm := hs
      simp only [validate_language_codes] at hsm
      split_ifs at hsm with hms
      injection hsm with hes
      subst hes
      have hms' : normCode source_lang ∉ allowed_langs :=
        fun hmem => hms (List.elem_iff.mpr hmem)
      simp only [List.cons_append, List.nil_append]
      simp [h1, h2, h3, h4, hms']
    | ok sv =>
      have hsm := hs
      simp only [validate_language_codes] at hsm
      split_ifs at hsm with hms
      injection hsm with hsv
      cases hg : validate_language_codes target_lang with
      | error eg =>
        have hgm := hg
        simp only [validate_language_codes] at hgm
        split_ifs at hgm with hmg
        injection hgm with heg
        subst heg
        have hms' : normCode source_lang ∈ allowed_langs := List.elem_iff.mp hms
        have hmg' : normCode target_lang ∉ allowed_langs :=
          fun hmem => hmg (List.elem_iff.mpr hmem)
        simp only [List.cons_append, List.nil_append]
        simp [h1, h2, h3, h4, hms', hmg']
      | ok tv =>
        have hgm := hg
        simp only [validate_language_codes] at hgm
        split_ifs at hgm with hmg
        injection hgm with htv
        by_cases heq : tv == sv
        · have heq' : normCode target_lang = normCode source_lang := by
            rw [htv, hsv]; exact beq_iff_eq.mp heq
          have hms' : normCode source_lang ∈ allowed_langs := List.elem_iff.mp hms
          have hmg' : normCode target_lang ∈ allowed_langs := List.elem_iff.mp hmg
          simp [heq, h1, h2, h3, h4, hms', hmg', heq']
        · have hneq' : ¬ normCode target_lang = normCode source_lang := by
            rw [htv, hsv]
            intro hc
            exact heq (beq_iff_eq.mpr hc)
          have hb : (tv == sv) = false := by
            cases hb' : tv == sv
            · rfl
            · exact absurd hb' heq
          simp only [hb, Bool.false_eq_true, if_false]
          unfold translateFirstFailure
          have hss : pyStrip (pyStrip text) = pyStrip text := pyStrip_pyStrip text
          have hns : normCode (normCode source_lang) = normCode source_lang :=
            normCode_of_allowed _ hms
          have hng : normCode (normCode target_lang) = normCode target_lang :=
            normCode_of_allowed _ hmg
          have h4' : ¬ 10 < (pySplit (pyStrip text)).length := h4
          have hms' : normCode source_lang ∈ allowed_langs := List.elem_iff.mp hms
          have hmg' : normCode target_lang ∈ allowed_langs := List.elem_iff.mp hmg
          simp [hss, hns, hng, h1, h2, h3, h4, h4', hms', hmg', hneq']

namespace TranslationService

/-- The alignment hypothesis of the no-partial-cache theorem is an
invariant: it holds for the fresh state and `_load_model` preserves it
(the two caches are only ever updated together). -/
theorem load_model_preserves_alignment
    (env : LoadEnv) (st : ServiceState) (p : String)
    (h : ∀ q, (st.models.lookup q).isSome = (st.tokenizers.lookup q).isSome) :
    ∀ q, (((load_model env st p).state.models.lookup q).isSome
      = ((load_model env st p).state.tokenizers.lookup q).isSome)
      ∧ ((init.models.lookup q).isSome = (init.tokenizers.lookup q).isSome) := by
  intro q
  refine ⟨?_, rfl⟩
  by_cases h1 : (st.models.lookup p).isSome
  · simp [load_model, h1, h q]
  · by_cases h2 : supportedPair p
    · rcases htok : env.fromPretrainedTokenizer ((MODEL_MAPPING.lookup p).getD "")
        with e1 | tok
      · simp [load_model, h1, h2, htok, h q]
      · rcases hmod : env.fromPretrainedModel ((MODEL_MAPPING.lookup p).getD "")
          with e2 | model
        · simp [load_model, h1, h2, htok, hmod, h q]
        · rcases hdev : env.toDevice model with e3 | model'
          · simp [load_model, h1, h2, htok, hmod, hdev, h q]
          · simp only [load_model, h1, h2, htok, hmod, hdev]
            simp only [Bool.false_eq_true, if_false, not_true_eq_false,
              not_false_eq_true, if_true, if_neg]
            cases hqp : q == p <;> simp [List.lookup, hqp, h q]
    · simp [load_model, h1, h2, h q]

end TranslationService
